import Mathlib

/-!
Formal model of the ModelBench comparison flow.

The first part transcribes the TypeScript sources of the web interface
(src/modelbench-ui/app): the result record, the selectable model catalog,
the sample result rows, the React state cells of the Home component
(packaged as one record, HomeState), and the handlers acting on them.
The second part models, from the design document, the backend pieces that
the Docker build refers to (modelbench.py) but that are not present in
the sources: metering, similarity scoring and the fan-out orchestrator.
-/

namespace ModelBench

/-- Record ModelResult from app/types.ts lines 1 to 11.  Every field is
required in the source; in particular cost is a plain number, not an
optional field, so an absent cost is not representable by this record. -/
structure ModelResult where
  id : String
  name : String
  logo : String
  output : String
  latency : Nat
  tokens : Nat
  cost : ℚ
  color : String
  bgColor : String
deriving DecidableEq

/-- Entry of the MODELS catalog of PromptSection.tsx lines 16 to 22: the
model identifiers the interface lets the user select. -/
structure ModelOption where
  id : String
  name : String
  color : String
deriving DecidableEq

/-- MODELS from app/components/PromptSection.tsx lines 16 to 22.  Note that
it offers five identifiers, llama among them. -/
def MODELS : List ModelOption :=
  [ ⟨"gpt-4", "GPT-4", "emerald"⟩,
    ⟨"claude", "Claude", "orange"⟩,
    ⟨"mistral", "Mistral", "purple"⟩,
    ⟨"llama", "LLaMA", "red"⟩,
    ⟨"gemini", "Gemini", "blue"⟩ ]

/-- SAMPLE_RESULTS from app/types.ts lines 24 to 157: the four hard-coded
rows (gpt-4, claude, mistral, gemini; there is no llama row) that a run
filters.  The output fields are multi-paragraph markdown texts in the
source; they are elided here to their opening heading, since no property
below depends on the output text. -/
def SAMPLE_RESULTS : List ModelResult :=
  [ { id := "gpt-4", name := "GPT-4", logo := "🤖",
      output := "# Analysis Complete",
      latency := 1247, tokens := 156, cost := 0.0234,
      color := "from-emerald-400 to-emerald-600",
      bgColor := "from-emerald-500/10 to-emerald-600/10" },
    { id := "claude", name := "Claude", logo := "🎭",
      output := "## Approach & Methodology",
      latency := 892, tokens := 142, cost := 0.0189,
      color := "from-orange-400 to-orange-600",
      bgColor := "from-orange-500/10 to-orange-600/10" },
    { id := "mistral", name := "Mistral", logo := "⚡",
      output := "## Prompt Analysis & Response",
      latency := 634, tokens := 128, cost := 0.0076,
      color := "from-purple-400 to-purple-600",
      bgColor := "from-purple-500/10 to-purple-600/10" },
    { id := "gemini", name := "Gemini", logo := "💎",
      output := "# Comprehensive Analysis Framework",
      latency := 1089, tokens := 167, cost := 0.0145,
      color := "from-blue-400 to-blue-600",
      bgColor := "from-blue-500/10 to-blue-600/10" } ]

/-- Characters removed by the JavaScript string trim method: the
ECMAScript WhiteSpace code points (tab, vertical tab, form feed, space,
no-break space, zero-width no-break space, and the whole Space_Separator
category U+1680, U+2000 to U+200A, U+202F, U+205F, U+3000) together with
the LineTerminator code points (line feed, carriage return, line
separator, paragraph separator). -/
def isJsWhitespace (c : Char) : Bool :=
  c.toNat = 9 || c.toNat = 10 || c.toNat = 11 || c.toNat = 12 ||
  c.toNat = 13 || c.toNat = 32 || c.toNat = 160 || c.toNat = 0x1680 ||
  (0x2000 ≤ c.toNat && c.toNat ≤ 0x200A) ||
  c.toNat = 0x2028 || c.toNat = 0x2029 || c.toNat = 0x202F ||
  c.toNat = 0x205F || c.toNat = 0x3000 || c.toNat = 0xFEFF

/-- JavaScript prompt.trim(): drop whitespace from both ends. -/
def jsTrim (s : String) : String :=
  String.mk (((s.data.dropWhile isJsWhitespace).reverse.dropWhile isJsWhitespace).reverse)

/-- The useState cells of the Home component, app/types.ts lines 160 to
166, packaged as one record. -/
structure HomeState where
  prompt : String
  selectedModels : List String
  presetTask : String
  isRunning : Bool
  results : List ModelResult
  hasRun : Bool
  sidePanelOpen : Bool
deriving DecidableEq

/-- The initial values of the useState cells, app/types.ts lines 160 to 166. -/
def initialState : HomeState where
  prompt := ""
  selectedModels := ["gpt-4", "claude"]
  presetTask := "open-ended"
  isRunning := false
  results := []
  hasRun := false
  sidePanelOpen := false

/-- handleRunComparison from app/types.ts lines 168 to 180, as the settled
state transition of one run.  The guard rejects a blank (trimmed-empty)
prompt or an empty model selection and returns with the state untouched;
otherwise hasRun is set, the results become the sample rows whose id is
selected (a filter over SAMPLE_RESULTS, hence in SAMPLE_RESULTS order),
and isRunning, raised at the start of the run, is false again once the
run settles. -/
def handleRunComparison (s : HomeState) : HomeState :=
  if jsTrim s.prompt = "" ∨ s.selectedModels = [] then s
  else
    { s with
      isRunning := false
      hasRun := true
      results := SAMPLE_RESULTS.filter (fun r => s.selectedModels.contains r.id) }

/-- canRun from app/components/PromptSection.tsx line 66 (and its twin in
PromptPanel line 137): the run button is enabled only for a non-blank
trimmed prompt, a non-empty selection, and no run in flight. -/
def canRun (prompt : String) (selectedModels : List String) (isRunning : Bool) : Bool :=
  (jsTrim prompt != "") && decide (selectedModels.length > 0) && (!isRunning)

/-- handleModelToggle from app/components/PromptSection.tsx lines 51 to 57
(and its twin in PromptPanel lines 122 to 128): deselect a selected model
by filtering its id out, select an unselected one by appending its id. -/
def handleModelToggle (selectedModels : List String) (modelId : String) : List String :=
  if selectedModels.contains modelId then
    selectedModels.filter (fun id => id != modelId)
  else
    selectedModels ++ [modelId]

/-- Modelled from the spec: the status of a per-model outcome of the
backend orchestrator (modelbench.py, copied into the image by the
Dockerfile but absent from the sources) — Success with the model output,
or Failed with an error kind; a failure of one model never removes its
entry. -/
inductive OutcomeStatus where
  | success (output : String)
  | failed (errorKind : String)
deriving DecidableEq

/-- Modelled from the spec: one ModelOutcome of the backend, keyed by its
model identifier, with the optional reference-similarity score — absent
unless the Similarity Calculator fills it in. -/
structure Outcome where
  modelId : String
  status : OutcomeStatus
  similarityToReference : Option ℚ
deriving DecidableEq

/-- An outcome with Success status. -/
def Outcome.isSuccess (o : Outcome) : Bool :=
  match o.status with
  | .success _ => true
  | .failed _ => false

/-- Modelled from the spec: the Metering contract of the missing backend
(design document 4.2) — estimatedCost is tokensUsed times the configured
provider rate, and when the rate table has no entry for the model the
cost is reported as unknown (absent), never as the number zero. -/
def estimatedCost (providerRate : String → Option ℚ) (modelId : String)
    (tokensUsed : Nat) : Option ℚ :=
  match providerRate modelId with
  | none => none
  | some rate => some ((tokensUsed : ℚ) * rate)

/-- Modelled from the spec: how the Similarity Calculator of the missing
backend (design document 4.4) treats one outcome, given the reference
model r and the reference output — a failed outcome is left untouched,
the reference outcome itself is left untouched, and every other
successful outcome receives a similarity score against the reference
output. -/
def scoreAgainst (sim : String → String → ℚ) (r : String) (refOutput : String)
    (o : Outcome) : Outcome :=
  match o.status with
  | .failed _ => o
  | .success out =>
    if o.modelId == r then o
    else { o with similarityToReference := some (sim refOutput out) }

/-- Modelled from the spec: the Similarity Calculator of the missing
backend (design document 4.4) — when a reference model is set and its
outcome succeeded, every outcome is scored against the reference output
(scoreAgainst); when the reference is unset, not found, or failed, no
score is written. -/
def applySimilarity (sim : String → String → ℚ) (referenceModel : Option String)
    (outcomes : List Outcome) : List Outcome :=
  match referenceModel with
  | none => outcomes
  | some r =>
    match outcomes.find? (fun o => o.modelId == r) with
    | none => outcomes
    | some ref =>
      match ref.status with
      | .failed _ => outcomes
      | .success refOutput => outcomes.map (scoreAgainst sim r refOutput)

/-- Modelled from the spec: the settled value of one provider invocation
of the missing backend — the provider client either returns text (with
optional token usage) or an error. -/
inductive InvokeResult where
  | ok (text : String) (tokensUsed : Option Nat)
  | err (errorKind : String)
deriving DecidableEq

/-- Modelled from the spec: converting one settled invocation into the
outcome for its model — an error is caught at the per-call boundary and
becomes a Failed outcome rather than propagating. -/
def settleInvocation (modelId : String) (res : InvokeResult) : Outcome :=
  match res with
  | .ok text _ => ⟨modelId, OutcomeStatus.success text, none⟩
  | .err kind => ⟨modelId, OutcomeStatus.failed kind, none⟩

/-- Modelled from the spec: the Fan-out Orchestrator of the missing
backend (design document 4.1) — one invocation per requested model, all
settled (success or failure) and gathered in request order; modelled
functionally, each entry depending only on its own invocation. -/
def fanOutGather (invoke : String → InvokeResult) (models : List String) : List Outcome :=
  models.map (fun m => settleInvocation m (invoke m))

/-- A state with an accepted request whose two selected models are listed
in the opposite of the sample-catalog order; reachable from initialState
by toggling gpt-4 off and on again. -/
def swappedState : HomeState :=
  { initialState with prompt := "hi", selectedModels := ["claude", "gpt-4"] }

/-- A state with an accepted request selecting only llama, an identifier
the MODELS catalog offers but SAMPLE_RESULTS has no row for. -/
def llamaState : HomeState :=
  { initialState with prompt := "hi", selectedModels := ["llama"] }

/-- Three fresh backend outcomes used to exercise the similarity
calculator: two successes and one failure, none scored yet. -/
def simDemo : List Outcome :=
  [ ⟨"a", OutcomeStatus.success "ta", none⟩,
    ⟨"b", OutcomeStatus.success "tb", none⟩,
    ⟨"c", OutcomeStatus.failed "boom", none⟩ ]

/-- A state whose prompt is whitespace only: spaces, a tab, and an
ideographic space (U+3000). -/
def wsState : HomeState :=
  { initialState with prompt := " \t \u3000 " }

/-- A state with an accepted request and the default selection, used to
replay a run. -/
def replayFirst : HomeState :=
  { initialState with prompt := "hi" }

/-- The state after one settled run from replayFirst. -/
def replaySecond : HomeState :=
  handleRunComparison replayFirst

/-- Lemma: a string all of whose characters are JavaScript whitespace
trims to the empty string. -/
theorem jsTrim_eq_empty (s : String) (h : ∀ c ∈ s.data, isJsWhitespace c = true) :
    jsTrim s = "" := by
  have h1 : s.data.dropWhile isJsWhitespace = [] :=
    List.dropWhile_eq_nil_iff.mpr h
  simp [jsTrim, h1]

/-- Lemma: on an accepted request (non-blank trimmed prompt, non-empty
selection) the run sets hasRun, clears isRunning once settled, and fills
the results with the selected sample rows. -/
theorem handleRunComparison_accepted (s : HomeState)
    (hp : jsTrim s.prompt ≠ "") (hm : s.selectedModels ≠ []) :
    handleRunComparison s =
      { s with
        isRunning := false
        hasRun := true
        results := SAMPLE_RESULTS.filter (fun r => s.selectedModels.contains r.id) } := by
  unfold handleRunComparison
  rw [if_neg]
  push_neg
  exact ⟨hp, hm⟩

/-- Lemma: filtering a duplicate-free list by membership in one of its
sublists gives back exactly that sublist. -/
theorem filter_contains_of_sublist {l₁ l₂ : List String} (h : List.Sublist l₁ l₂) :
    l₂.Nodup → l₂.filter (fun x => l₁.contains x) = l₁ := by
  induction h with
  | slnil => intro _; rfl
  | @cons m₁ m₂ a hs ih =>
    intro hd
    have ha : a ∉ m₁ := fun hmem => (List.nodup_cons.mp hd).1 (hs.subset hmem)
    rw [List.filter_cons]
    have hc : m₁.contains a = false := by
      simp [List.contains, List.elem_iff]
      exact ha
    rw [hc]
    simp only [Bool.false_eq_true, if_false]
    exact ih (List.nodup_cons.mp hd).2
  | @cons₂ m₁ m₂ a hs ih =>
    intro hd
    rw [List.filter_cons]
    have hc : (a :: m₁).contains a = true := by
      simp
    rw [hc]
    simp only [if_true]
    have hcongr : m₂.filter (fun x => (a :: m₁).contains x)
        = m₂.filter (fun x => m₁.contains x) := by
      apply List.filter_congr
      intro x hx
      have hxa : (x == a) = false := by
        rw [beq_eq_false_iff_ne]
        exact fun e => (List.nodup_cons.mp hd).1 (e ▸ hx)
      rw [List.contains_cons, hxa, Bool.false_or]
    rw [hcongr, ih (List.nodup_cons.mp hd).2]

/-- C3: a request whose prompt is empty or whose selected-models list is
empty is rejected before any processing — handleRunComparison returns
immediately with the whole state, in particular results, hasRun and
isRunning, unchanged. -/
theorem handleRunComparison_rejects_unchanged (s : HomeState)
    (h : s.prompt = "" ∨ s.selectedModels = []) :
    handleRunComparison s = s := by
  rcases h with h | h
  · have ht : jsTrim s.prompt = "" := by rw [h]; rfl
    simp [handleRunComparison, ht]
  · simp [handleRunComparison, h]

/-- Witness for C3: the initial state has an empty prompt, and running a
comparison from it changes nothing. -/
theorem handleRunComparison_rejects_unchanged_witness :
    (initialState.prompt = "" ∨ initialState.selectedModels = []) ∧
    handleRunComparison initialState = initialState :=
  ⟨Or.inl rfl, handleRunComparison_rejects_unchanged initialState (Or.inl rfl)⟩

/-- C8: the request fields are never written by a run — for every state,
handleRunComparison leaves the prompt, the selected-models list, the
preset task (and the side-panel flag) unchanged, so only results,
isRunning and hasRun can differ. -/
theorem handleRunComparison_frame (s : HomeState) :
    (handleRunComparison s).prompt = s.prompt ∧
    (handleRunComparison s).selectedModels = s.selectedModels ∧
    (handleRunComparison s).presetTask = s.presetTask ∧
    (handleRunComparison s).sidePanelOpen = s.sidePanelOpen := by
  unfold handleRunComparison
  split <;> simp

/-- C9: a prompt made only of whitespace characters is treated exactly
like an empty one — the canRun guard is false and handleRunComparison
returns with the state unchanged, because the emptiness check uses the
trimmed prompt. -/
theorem whitespace_prompt_rejected (s : HomeState)
    (h : ∀ c ∈ s.prompt.data, isJsWhitespace c = true) :
    canRun s.prompt s.selectedModels s.isRunning = false ∧
    handleRunComparison s = s := by
  have ht : jsTrim s.prompt = "" := jsTrim_eq_empty _ h
  constructor
  · simp [canRun, ht]
  · simp [handleRunComparison, ht]

/-- Witness for C9: a concrete whitespace-only prompt is rejected and the
run button is disabled. -/
theorem whitespace_prompt_rejected_witness :
    canRun wsState.prompt wsState.selectedModels wsState.isRunning = false ∧
    handleRunComparison wsState = wsState :=
  whitespace_prompt_rejected wsState (by decide)

/-- Lemma: toggling a currently selected model filters its id out. -/
theorem handleModelToggle_pos {l : List String} {m : String}
    (hc : l.contains m = true) :
    handleModelToggle l m = l.filter (fun id => id != m) := by
  unfold handleModelToggle
  rw [if_pos hc]

/-- Lemma: toggling a currently unselected model appends its id. -/
theorem handleModelToggle_neg {l : List String} {m : String}
    (hc : l.contains m = false) :
    handleModelToggle l m = l ++ [m] := by
  unfold handleModelToggle
  have hn : ¬ (l.contains m = true) := by rw [hc]; simp
  rw [if_neg hn]

/-- C10: on a duplicate-free selection, handleModelToggle keeps the list
duplicate-free, flips exactly the toggled identifier (it is selected
afterwards iff it was not before), leaves every other identifier's
membership unchanged, and toggling the same identifier twice restores the
original set of selected models. -/
theorem handleModelToggle_flips_membership (l : List String) (m : String)
    (hnd : l.Nodup) :
    (handleModelToggle l m).Nodup ∧
    (m ∈ handleModelToggle l m ↔ m ∉ l) ∧
    (∀ x, x ≠ m → (x ∈ handleModelToggle l m ↔ x ∈ l)) ∧
    (∀ x, x ∈ handleModelToggle (handleModelToggle l m) m ↔ x ∈ l) := by
  by_cases hm : m ∈ l
  · have hc : l.contains m = true := by
      simp [List.contains, List.elem_iff]; exact hm
    have ht : handleModelToggle l m = l.filter (fun id => id != m) :=
      handleModelToggle_pos hc
    have hmem : ∀ x, x ∈ handleModelToggle l m ↔ (x ∈ l ∧ x ≠ m) := by
      intro x
      rw [ht]
      simp [List.mem_filter, bne_iff_ne]
    refine ⟨?_, ?_, ?_, ?_⟩
    · rw [ht]; exact List.Nodup.filter _ hnd
    · rw [hmem]; simp [hm]
    · intro x hx; rw [hmem]; simp [hx]
    · intro x
      have hc₂ : (handleModelToggle l m).contains m = false := by
        rw [Bool.eq_false_iff]
        intro hcon
        have hin : m ∈ handleModelToggle l m := by
          rw [← List.elem_iff]; exact hcon
        rw [hmem] at hin
        exact hin.2 rfl
      rw [handleModelToggle_neg hc₂, List.mem_append, hmem]
      constructor
      · rintro (⟨hxl, _⟩ | hxm)
        · exact hxl
        · simp at hxm; exact hxm ▸ hm
      · intro hxl
        by_cases hxm : x = m
        · right; simp [hxm]
        · left; exact ⟨hxl, hxm⟩
  · have hc : l.contains m = false := by
      rw [Bool.eq_false_iff]
      intro hcon
      exact hm (by rw [← List.elem_iff]; exact hcon)
    have ht : handleModelToggle l m = l ++ [m] := handleModelToggle_neg hc
    refine ⟨?_, ?_, ?_, ?_⟩
    · rw [ht, List.nodup_append]
      exact ⟨hnd, List.nodup_singleton m, by
        intro x hx hx₂
        simp at hx₂
        exact hm (hx₂ ▸ hx)⟩
    · rw [ht]; simp [hm]
    · intro x hx; rw [ht]; simp [List.mem_append, hx]
    · intro x
      have hc₂ : (handleModelToggle l m).contains m = true := by
        rw [ht]
        simp [List.contains, List.elem_iff]
      rw [handleModelToggle_pos hc₂, ht, List.filter_append]
      have h1 : l.filter (fun id => id != m) = l := by
        rw [List.filter_eq_self]
        intro a ha
        rw [bne_iff_ne]
        exact fun e => hm (e ▸ ha)
      have h2 : ([m] : List String).filter (fun id => id != m) = [] := by
        simp
      rw [h1, h2, List.append_nil]

/-- Witness for C10: toggling claude twice on the duplicate-free default
selection keeps it duplicate-free, first removes claude, and the double
toggle leaves gpt-4 selected. -/
theorem handleModelToggle_flips_membership_witness :
    (["gpt-4", "claude"] : List String).Nodup ∧
    (handleModelToggle ["gpt-4", "claude"] "claude").Nodup ∧
    ("claude" ∈ handleModelToggle ["gpt-4", "claude"] "claude" ↔
      "claude" ∉ (["gpt-4", "claude"] : List String)) ∧
    ("gpt-4" ∈ handleModelToggle (handleModelToggle ["gpt-4", "claude"] "claude") "claude" ↔
      "gpt-4" ∈ (["gpt-4", "claude"] : List String)) :=
  ⟨by decide,
   (handleModelToggle_flips_membership ["gpt-4", "claude"] "claude" (by decide)).1,
   (handleModelToggle_flips_membership ["gpt-4", "claude"] "claude" (by decide)).2.1,
   (handleModelToggle_flips_membership ["gpt-4", "claude"] "claude" (by decide)).2.2.2 "gpt-4"⟩

/-- Lemma: on an accepted request the identifiers of the result rows are
the sample-catalog identifiers filtered by membership in the selection —
hence always in sample-catalog order. -/
theorem run_results_ids (s : HomeState)
    (hp : jsTrim s.prompt ≠ "") (hm : s.selectedModels ≠ []) :
    (handleRunComparison s).results.map ModelResult.id
      = (SAMPLE_RESULTS.map ModelResult.id).filter
          (fun m => s.selectedModels.contains m) := by
  rw [handleRunComparison_accepted s hp hm]
  show (SAMPLE_RESULTS.filter fun r => s.selectedModels.contains r.id).map ModelResult.id = _
  rw [List.filter_map]
  rfl

/-- C1 counterexample: the state selecting claude then gpt-4 (reachable
from the initial selection by toggling gpt-4 off and back on) is an
accepted request, yet the run returns the rows as gpt-4 then claude — the
sample-catalog order, not the requested order. -/
theorem run_request_order_counterexample :
    handleModelToggle (handleModelToggle initialState.selectedModels "gpt-4") "gpt-4"
      = swappedState.selectedModels ∧
    jsTrim swappedState.prompt ≠ "" ∧
    swappedState.selectedModels = ["claude", "gpt-4"] ∧
    (handleRunComparison swappedState).results.map ModelResult.id = ["gpt-4", "claude"] ∧
    ¬ (handleRunComparison swappedState).results.map ModelResult.id
        = swappedState.selectedModels := by
  refine ⟨by decide, by decide, by decide, by decide, by decide⟩

/-- C1 amended: on every accepted request the result rows are ordered by
the fixed sample catalog, one row per selected identifier present in the
catalog; consequently the i-th result id equals the i-th requested id
exactly when the requested sequence itself lists catalog models in
catalog order (is a sublist of the catalog identifiers). -/
theorem run_results_follow_catalog_order (s : HomeState)
    (hp : jsTrim s.prompt ≠ "") (hm : s.selectedModels ≠ []) :
    (handleRunComparison s).results.map ModelResult.id
      = (SAMPLE_RESULTS.map ModelResult.id).filter
          (fun m => s.selectedModels.contains m) ∧
    (List.Sublist s.selectedModels (SAMPLE_RESULTS.map ModelResult.id) →
      (handleRunComparison s).results.map ModelResult.id = s.selectedModels) := by
  have h2 := run_results_ids s hp hm
  refine ⟨h2, fun hsub => ?_⟩
  rw [h2, filter_contains_of_sublist hsub (by decide)]

/-- Witness for C1 amended: the accepted request for gpt-4 and claude, in
catalog order, yields exactly those ids in that order. -/
theorem run_results_follow_catalog_order_witness :
    jsTrim replayFirst.prompt ≠ "" ∧
    (handleRunComparison replayFirst).results.map ModelResult.id
      = (SAMPLE_RESULTS.map ModelResult.id).filter
          (fun m => replayFirst.selectedModels.contains m) ∧
    (handleRunComparison replayFirst).results.map ModelResult.id
      = replayFirst.selectedModels :=
  ⟨by decide,
   (run_results_follow_catalog_order replayFirst (by decide) (by decide)).1,
   (run_results_follow_catalog_order replayFirst (by decide) (by decide)).2 (by decide)⟩

/-- C2 counterexample: llama is an identifier the MODELS catalog lets the
user select, yet the accepted request selecting exactly llama produces an
empty result list — zero outcomes instead of exactly one. -/
theorem one_outcome_per_model_counterexample :
    (MODELS.map ModelOption.id).contains "llama" = true ∧
    jsTrim llamaState.prompt ≠ "" ∧
    llamaState.selectedModels = ["llama"] ∧
    (handleRunComparison llamaState).results = [] := by
  refine ⟨by decide, by decide, by decide, by decide⟩

/-- C2 amended: on every accepted request the result carries
duplicate-free identifiers, and an identifier appears in the result
exactly when it is both selected and present in the sample catalog
(gpt-4, claude, mistral, gemini) — so there is exactly one row per
selected catalog model and selected identifiers outside the catalog
(llama) are omitted. -/
theorem run_results_one_per_catalog_model (s : HomeState)
    (hp : jsTrim s.prompt ≠ "") (hm : s.selectedModels ≠ []) :
    ((handleRunComparison s).results.map ModelResult.id).Nodup ∧
    ∀ m : String, m ∈ (handleRunComparison s).results.map ModelResult.id ↔
      (m ∈ s.selectedModels ∧ m ∈ SAMPLE_RESULTS.map ModelResult.id) := by
  have h2 := run_results_ids s hp hm
  constructor
  · rw [h2]
    exact List.Nodup.filter _ (by decide)
  · intro m
    rw [h2, List.mem_filter]
    constructor
    · rintro ⟨hms, hmc⟩
      refine ⟨?_, hms⟩
      rw [← List.elem_iff]
      exact hmc
    · rintro ⟨hmsel, hms⟩
      refine ⟨hms, ?_⟩
      simp [List.contains, List.elem_iff]
      exact hmsel

/-- Witness for C2 amended: on the accepted llama-only request, the
result ids are duplicate-free and llama itself appears in the result iff
it is selected and in the sample catalog — it is selected but not in the
catalog, so it is absent. -/
theorem run_results_one_per_catalog_model_witness :
    jsTrim llamaState.prompt ≠ "" ∧
    ((handleRunComparison llamaState).results.map ModelResult.id).Nodup ∧
    ("llama" ∈ (handleRunComparison llamaState).results.map ModelResult.id ↔
      ("llama" ∈ llamaState.selectedModels ∧
        "llama" ∈ SAMPLE_RESULTS.map ModelResult.id)) :=
  ⟨by decide,
   (run_results_one_per_catalog_model llamaState (by decide) (by decide)).1,
   (run_results_one_per_catalog_model llamaState (by decide) (by decide)).2 "llama"⟩

/-- C6: the settled run is a function of the request inputs alone — two
executions of handleRunComparison from the same prompt and the same
selection (whatever the rest of the state) return the same result list,
hence the same identifier sequence and field-for-field the same
structure. -/
theorem run_shape_deterministic (s₁ s₂ : HomeState)
    (hp : s₁.prompt = s₂.prompt) (hm : s₁.selectedModels = s₂.selectedModels)
    (hacc : jsTrim s₁.prompt ≠ "") (hne : s₁.selectedModels ≠ []) :
    (handleRunComparison s₁).results = (handleRunComparison s₂).results ∧
    (handleRunComparison s₁).results.map ModelResult.id
      = (handleRunComparison s₂).results.map ModelResult.id := by
  have hacc₂ : jsTrim s₂.prompt ≠ "" := by rw [← hp]; exact hacc
  have hne₂ : s₂.selectedModels ≠ [] := by rw [← hm]; exact hne
  have hres : (handleRunComparison s₁).results = (handleRunComparison s₂).results := by
    rw [handleRunComparison_accepted s₁ hacc hne,
        handleRunComparison_accepted s₂ hacc₂ hne₂]
    show SAMPLE_RESULTS.filter (fun r => s₁.selectedModels.contains r.id)
        = SAMPLE_RESULTS.filter (fun r => s₂.selectedModels.contains r.id)
    rw [hm]
  exact ⟨hres, congrArg (List.map ModelResult.id) hres⟩

/-- Witness for C6: replaying the accepted default request right after
its first run (same prompt and selection, different results and hasRun
cells) returns the identical result list. -/
theorem run_shape_deterministic_witness :
    replayFirst.prompt = replaySecond.prompt ∧
    (handleRunComparison replayFirst).results
      = (handleRunComparison replaySecond).results :=
  ⟨by decide,
   (run_shape_deterministic replayFirst replaySecond
      (by decide) (by decide) (by decide) (by decide)).1⟩

/-- Lemma: scoring never changes an outcome's model identifier. -/
theorem scoreAgainst_modelId (sim : String → String → ℚ) (r refOutput : String)
    (o : Outcome) : (scoreAgainst sim r refOutput o).modelId = o.modelId := by
  unfold scoreAgainst
  split
  · rfl
  · split <;> rfl

/-- Lemma: a failed outcome is left untouched by scoring. -/
theorem scoreAgainst_failed (sim : String → String → ℚ) (r refOutput : String)
    (o : Outcome) (e : String) (hs : o.status = OutcomeStatus.failed e) :
    scoreAgainst sim r refOutput o = o := by
  unfold scoreAgainst
  rw [hs]

/-- Lemma: the reference outcome is left untouched by scoring. -/
theorem scoreAgainst_self (sim : String → String → ℚ) (r refOutput : String)
    (o : Outcome) (hid : o.modelId = r) :
    scoreAgainst sim r refOutput o = o := by
  unfold scoreAgainst
  cases h : o.status
  · simp [hid]
  · rfl

/-- Lemma: a successful non-reference outcome gets a similarity score. -/
theorem scoreAgainst_success_ne (sim : String → String → ℚ) (r refOutput : String)
    (o : Outcome) (out : String) (hs : o.status = OutcomeStatus.success out)
    (hne : o.modelId ≠ r) :
    (scoreAgainst sim r refOutput o).similarityToReference
      = some (sim refOutput out) := by
  unfold scoreAgainst
  rw [hs]
  have hb : (o.modelId == r) = false := beq_eq_false_iff_ne.mpr hne
  rw [hb]
  simp

/-- Lemma: scoring preserves the success status of an outcome. -/
theorem scoreAgainst_isSuccess (sim : String → String → ℚ) (r refOutput : String)
    (o : Outcome) : (scoreAgainst sim r refOutput o).isSuccess = o.isSuccess := by
  unfold scoreAgainst
  split
  · rfl
  · split <;> rfl

/-- C4: when the reference model r is requested and its outcome
succeeded, the similarity pass leaves every outcome keyed r unscored
(still without a similarityToReference) while every other successful
outcome in the result carries a defined similarityToReference. -/
theorem applySimilarity_reference_success (sim : String → String → ℚ) (r : String)
    (outcomes : List Outcome) (ref : Outcome) (t : String)
    (href : outcomes.find? (fun o => o.modelId == r) = some ref)
    (hstat : ref.status = OutcomeStatus.success t)
    (hfresh : ∀ o ∈ outcomes, o.similarityToReference = none) :
    ∀ o₂ ∈ applySimilarity sim (some r) outcomes,
      (o₂.isSuccess = true → o₂.modelId ≠ r →
        o₂.similarityToReference.isSome = true) ∧
      (o₂.modelId = r → o₂.similarityToReference = none) := by
  intro o₂ hmem
  obtain ⟨rid, rstat, rsim⟩ := ref
  change rstat = OutcomeStatus.success t at hstat
  subst hstat
  have happ : applySimilarity sim (some r) outcomes
      = outcomes.map (scoreAgainst sim r t) := by
    unfold applySimilarity
    show (match outcomes.find? (fun o => o.modelId == r) with
      | none => outcomes
      | some ref =>
        match ref.status with
        | OutcomeStatus.failed _ => outcomes
        | OutcomeStatus.success refOutput => outcomes.map (scoreAgainst sim r refOutput))
      = outcomes.map (scoreAgainst sim r t)
    rw [href]
  rw [happ, List.mem_map] at hmem
  obtain ⟨o, ho, rfl⟩ := hmem
  constructor
  · intro hsucc hne
    rw [scoreAgainst_modelId] at hne
    rw [scoreAgainst_isSuccess] at hsucc
    obtain ⟨out, hs⟩ : ∃ out, o.status = OutcomeStatus.success out := by
      cases h : o.status
      · exact ⟨_, rfl⟩
      · rw [Outcome.isSuccess, h] at hsucc; simp at hsucc
    rw [scoreAgainst_success_ne sim r t o out hs hne]
    rfl
  · intro hid
    rw [scoreAgainst_modelId] at hid
    rw [scoreAgainst_self sim r t o hid]
    exact hfresh o ho

/-- Witness for C4: on three fresh outcomes with reference a (successful),
the non-reference success b ends up scored, and the outcome keyed a stays
unscored. -/
theorem applySimilarity_reference_success_witness :
    simDemo.find? (fun o => o.modelId == "a")
      = some ⟨"a", OutcomeStatus.success "ta", none⟩ ∧
    ((⟨"b", OutcomeStatus.success "tb", some 1⟩ : Outcome).similarityToReference.isSome
      = true) ∧
    ((⟨"a", OutcomeStatus.success "ta", none⟩ : Outcome).similarityToReference = none) :=
  ⟨by decide,
   ((applySimilarity_reference_success (fun _ _ => (1 : ℚ)) "a" simDemo
      ⟨"a", OutcomeStatus.success "ta", none⟩ "ta" (by decide) rfl (by decide)
      ⟨"b", OutcomeStatus.success "tb", some 1⟩ (by decide)).1 (by decide) (by decide)),
   ((applySimilarity_reference_success (fun _ _ => (1 : ℚ)) "a" simDemo
      ⟨"a", OutcomeStatus.success "ta", none⟩ "ta" (by decide) rfl (by decide)
      ⟨"a", OutcomeStatus.success "ta", none⟩ (by decide)).2 rfl)⟩

/-- C5: when the provider rate for a model is unknown, its estimated cost
is reported as absent, never as the number zero — and a genuinely
zero-rated model reports the number zero, so absence and a real zero
cost stay distinguishable. -/
theorem estimatedCost_unknown_not_zero (providerRate : String → Option ℚ)
    (modelId : String) (tokensUsed : Nat)
    (h : providerRate modelId = none) :
    estimatedCost providerRate modelId tokensUsed = none ∧
    estimatedCost providerRate modelId tokensUsed ≠ some 0 ∧
    ∀ providerRate₂ : String → Option ℚ, providerRate₂ modelId = some 0 →
      estimatedCost providerRate₂ modelId tokensUsed = some 0 := by
  refine ⟨?_, ?_, ?_⟩
  · simp [estimatedCost, h]
  · simp [estimatedCost, h]
  · intro pr₂ h₂
    simp [estimatedCost, h₂]

/-- Witness for C5: with an empty rate table the cost of a run over llama
is absent and in particular different from the number zero. -/
theorem estimatedCost_unknown_not_zero_witness :
    ((fun _ : String => (none : Option ℚ)) "llama" = none) ∧
    estimatedCost (fun _ => none) "llama" 100 = none ∧
    estimatedCost (fun _ => none) "llama" 100 ≠ some 0 :=
  ⟨rfl,
   (estimatedCost_unknown_not_zero (fun _ => none) "llama" 100 rfl).1,
   (estimatedCost_unknown_not_zero (fun _ => none) "llama" 100 rfl).2.1⟩

/-- C7: the orchestrator gathers one settled outcome per requested model,
in request order and in the same number, and each outcome is exactly the
settlement of its own model's invocation — a failure or success of one
invocation never short-circuits, drops or alters another model's entry. -/
theorem fanOutGather_settles_all (invoke : String → InvokeResult)
    (models : List String) :
    (fanOutGather invoke models).map Outcome.modelId = models ∧
    (fanOutGather invoke models).length = models.length ∧
    ∀ o ∈ fanOutGather invoke models,
      o = settleInvocation o.modelId (invoke o.modelId) := by
  have hid : ∀ m, (settleInvocation m (invoke m)).modelId = m := by
    intro m
    cases invoke m <;> rfl
  refine ⟨?_, ?_, ?_⟩
  · unfold fanOutGather
    rw [List.map_map]
    have hcomp : (Outcome.modelId ∘ fun m => settleInvocation m (invoke m)) = id := by
      funext m
      exact hid m
    rw [hcomp, List.map_id]
  · unfold fanOutGather
    rw [List.length_map]
  · intro o ho
    unfold fanOutGather at ho
    rw [List.mem_map] at ho
    obtain ⟨m, hm, rfl⟩ := ho
    rw [hid m]

end ModelBench
